import Mathlib

/-!
Verification of the BeHuman empathic recommendation engine
(`src/recommender/recommendation_engine.py`).

The Python module is shallowly embedded below: dataclasses become
structures, the knowledge-base dictionaries become association lists in
their source order, Python string operations (`.lower()`, `in`,
slicing, `rfind`) become executable Lean functions on `String` and
`List Char`, and the one source of randomness (`random.choice` in the
message generator) becomes an explicit index argument ranging over the
candidate phrases.  Scores are integers: every increment in the source
is an integer literal, so the Python float arithmetic is exact.
-/

set_option maxRecDepth 10000

-- ===========================================================================
-- String primitives mirroring the Python operations used by the engine
-- ===========================================================================

/-- Python `str.lower()` restricted to the alphabet this repository uses:
ASCII letters plus the accented Spanish letters appearing in the tables. -/
def toLowerPy (c : Char) : Char :=
  if 65 ≤ c.toNat && c.toNat ≤ 90 then Char.ofNat (c.toNat + 32)
  else if c = 'Á' then 'á'
  else if c = 'É' then 'é'
  else if c = 'Í' then 'í'
  else if c = 'Ó' then 'ó'
  else if c = 'Ú' then 'ú'
  else if c = 'Ñ' then 'ñ'
  else if c = 'Ü' then 'ü'
  else c

/-- Python `s.lower()`: character-wise case folding. -/
def pyLower (s : String) : String :=
  (s.toList.map toLowerPy).asString

/-- Here `listIsPref a b` is true when `a` is a leading segment of `b`. -/
def listIsPref : List Char → List Char → Bool
  | [], _ => true
  | _ :: _, [] => false
  | a :: as, b :: bs => a == b && listIsPref as bs

/-- Here `listHasSub needle hay` is true when `needle` occurs contiguously in
`hay`. -/
def listHasSub (needle : List Char) : List Char → Bool
  | [] => listIsPref needle []
  | c :: rest => listIsPref needle (c :: rest) || listHasSub needle rest

/-- Python `needle in hay` on strings: contiguous substring test. -/
def pyIn (needle hay : String) : Bool :=
  listHasSub needle.toList hay.toList

-- ===========================================================================
-- Data model (the dataclasses of the source module)
-- ===========================================================================

/-- Embeds `UserProfile` dataclass. -/
structure UserProfile where
  user_id : String
  name : String
  age : Int
  gender : String
  hobbies : List String
  goals : List String
deriving DecidableEq

/-- Embeds `Situation` dataclass. -/
structure Situation where
  type : String
  subtype : String
  context : String
deriving DecidableEq

/-- Embeds `Product` dataclass.  `precio_desde` is an integer here: the claims
never inspect prices and every price the loader produces is an exact
JSON number or the default 0. -/
structure Product where
  id : String
  nombre : String
  categoria_principal : String
  subcategoria : String
  precio_desde : Int
  url : String
  imagen_url : String
  promocion : Bool
  descripcion : Option String
  activity_types : List String
  situation_tags : List String
deriving DecidableEq

/-- Embeds `Recommendation` dataclass. -/
structure Recommendation where
  product : Product
  score : Int
  reasons : List String
deriving DecidableEq

-- ===========================================================================
-- SituationKnowledgeBase
-- ===========================================================================

/-- One value of the `SITUATION_CONFIG` dictionary. -/
structure SituationConfig where
  beneficial : List String
  avoid : List String
  keywords : List String
  description : String
deriving DecidableEq

/-- Embeds `SituationKnowledgeBase.SITUATION_CONFIG`, in source order. -/
def SITUATION_CONFIG : List (String × SituationConfig) :=
  [ ("perdida_familiar",
     { beneficial := ["baja_estimulacion", "naturaleza", "social_suave", "mindfulness", "agua"]
       avoid := ["alta_estimulacion", "competitivo", "fiesta"]
       keywords := ["descanso", "tranquilo", "paz", "naturaleza", "spa", "estadía", "caminata"]
       description := "La pérdida requiere espacios de calma para procesar el duelo" }),
    ("ruptura_amorosa",
     { beneficial := ["ejercicio", "social", "expresion_artistica", "naturaleza", "agua"]
       avoid := ["romantico", "parejas"]
       keywords := ["deporte", "grupo", "social", "arte", "natación", "gimnasio", "taller"]
       description := "El movimiento físico y las conexiones sociales ayudan a procesar" }),
    ("ansiedad",
     { beneficial := ["mindfulness", "ejercicio_suave", "naturaleza", "agua", "baja_estimulacion"]
       avoid := ["alta_estimulacion", "multitudes", "competitivo"]
       keywords := ["yoga", "meditación", "natación", "spa", "relajación", "tranquilo"]
       description := "Actividades que calman el sistema nervioso son clave" }),
    ("soledad",
     { beneficial := ["social", "grupal", "club", "voluntariado"]
       avoid := ["individual", "solitario"]
       keywords := ["grupo", "club", "taller", "clase", "social", "comunidad"]
       description := "Construir conexiones a través de intereses compartidos" }),
    ("estres_laboral",
     { beneficial := ["desconexion", "naturaleza", "ejercicio", "spa", "agua"]
       avoid := ["alta_concentracion", "competitivo"]
       keywords := ["escapada", "descanso", "spa", "naturaleza", "deporte", "vacaciones", "parque"]
       description := "Desconexión activa del entorno laboral" }),
    ("duelo",
     { beneficial := ["baja_estimulacion", "naturaleza", "expresion_artistica", "social_suave"]
       avoid := ["alta_estimulacion", "fiestas"]
       keywords := ["tranquilo", "naturaleza", "arte", "caminata", "grupo de apoyo"]
       description := "Espacio para procesar y honrar la pérdida" }) ]

/-- Embeds `SituationKnowledgeBase.get_config`: dictionary lookup with the
empty fallback record for unknown situation types. -/
def get_config (situation_type : String) : SituationConfig :=
  (SITUATION_CONFIG.lookup situation_type).getD
    { beneficial := [], avoid := [], keywords := [], description := "" }

-- ===========================================================================
-- ProductTagger
-- ===========================================================================

/-- Embeds `ProductTagger.ACTIVITY_KEYWORDS`, in source order. -/
def ACTIVITY_KEYWORDS : List (String × List String) :=
  [ ("naturaleza", ["ecológic", "natural", "caminata", "senderismo", "lagosol", "parque", "jardín"]),
    ("agua", ["acuático", "piscina", "natación", "spa", "agua", "lagosol"]),
    ("ejercicio", ["deporte", "gimnasio", "natación", "fitness", "ejercicio"]),
    ("social", ["grupo", "club", "taller", "clase", "comunidad"]),
    ("mindfulness", ["yoga", "meditación", "bienestar", "relajación", "mindfulness"]),
    ("baja_estimulacion", ["descanso", "tranquilo", "estadía", "spa", "relax", "pasadía"]),
    ("expresion_artistica", ["arte", "pintura", "música", "teatro", "taller creativo", "manualidades"]),
    ("turismo", ["pasadía", "entrada", "tour", "viaje", "escapada"]) ]

/-- Embeds `ProductTagger._infer_situations`: the situation types whose
beneficial set meets the given activity types, in table order. -/
def inferSituations (activity_types : List String) : List String :=
  SITUATION_CONFIG.filterMap fun sc =>
    if activity_types.any (fun a => sc.2.beneficial.contains a) then some sc.1 else none

/-- Embeds `ProductTagger.tag_product`.  The keyword scan runs over the
case-folded concatenation of name, category, subcategory and the
description (`None` becoming the empty string); the situation tags are
inferred from the activity types before the `general` fallback is
applied, exactly as in the source. -/
def tag_product (product : Product) : Product :=
  let text := pyLower (product.nombre ++ " " ++ product.categoria_principal ++ " "
    ++ product.subcategoria ++ " " ++ product.descripcion.getD "")
  let activity_types := ACTIVITY_KEYWORDS.filterMap fun ak =>
    if ak.2.any (fun kw => pyIn (pyLower kw) text) then some ak.1 else none
  { product with
    activity_types := if activity_types.isEmpty then ["general"] else activity_types
    situation_tags := inferSituations activity_types }

-- ===========================================================================
-- RecommendationEngine._load_products
-- ===========================================================================

/-- A raw catalog record as read from the products JSON file: every
field may be absent.  `precioValor` stands for
`raw.get("precio", {}).get("valor_numerico", 0)`: `none` covers a
missing or non-dict `precio` as well as a missing `valor_numerico`,
all of which the source collapses to 0. -/
structure RawProduct where
  idField : Option String
  nombreField : Option String
  categoriaField : Option String
  subcategoriaField : Option String
  precioValor : Option Int
  urlField : Option String
  imagenField : Option String
  promocionField : Option Bool
  descripcionField : Option String
deriving DecidableEq

/-- The `Product(...)` construction inside `_load_products`: missing
fields default to the empty string, price 0, promotion `False`; the
derived tag fields start from the dataclass defaults `[]`. -/
def toProduct (raw : RawProduct) : Product :=
  { id := raw.idField.getD ""
    nombre := raw.nombreField.getD ""
    categoria_principal := raw.categoriaField.getD ""
    subcategoria := raw.subcategoriaField.getD ""
    precio_desde := raw.precioValor.getD 0
    url := raw.urlField.getD ""
    imagen_url := raw.imagenField.getD ""
    promocion := raw.promocionField.getD false
    descripcion := raw.descripcionField
    activity_types := []
    situation_tags := [] }

/-- The loading loop of `_load_products`.  `seen` is the `seen_ids`
set: it stores the value of `raw.get("id")`, which is `none` for a
record with no identifier.  A record whose identifier value was seen
before is skipped; every other record is converted with defaults,
tagged, and appended. -/
def loadGo : List RawProduct → List (Option String) → List Product
  | [], _ => []
  | raw :: rest, seen =>
    if seen.contains raw.idField then
      loadGo rest seen
    else
      tag_product (toProduct raw) :: loadGo rest (raw.idField :: seen)

/-- Embeds `RecommendationEngine._load_products` applied to an already-parsed
raw list (the file-existence guard and JSON parsing live outside the
core being specified). -/
def loadProducts (raws : List RawProduct) : List Product :=
  loadGo raws []

/-- Specification-side description of the loading pass: keep the first
occurrence of every identifier value (`seen` is the accumulator of
identifier values already kept).  Used to characterise `loadProducts`. -/
def firstOccurrences : List RawProduct → List (Option String) → List RawProduct
  | [], _ => []
  | raw :: rest, seen =>
    if seen.contains raw.idField then
      firstOccurrences rest seen
    else
      raw :: firstOccurrences rest (raw.idField :: seen)

-- ===========================================================================
-- RecommendationEngine.recommend: per-product scoring
-- ===========================================================================

/-- An apostrophe, kept out of the string literals. -/
def apos : String :=
  String.singleton (Char.ofNat 39)

/-- The scoring loop body of `RecommendationEngine.recommend` for one
product: starts at score 0 with no reasons, then applies, in source
order, the beneficial-trait bonus, the avoid-trait penalty, the
keyword-in-name bonus, the promotion bonus, and the per-hobby bonus. -/
def scoreAndReasons (beneficial avoid keywords hobbies : List String)
    (p : Product) : Int × List String :=
  let s0 : Int := 0
  let r0 : List String := []
  let matching_types := p.activity_types.filter fun a => beneficial.contains a
  let sr1 : Int × List String :=
    match matching_types with
    | [] => (s0, r0)
    | m :: _ =>
      (s0 + 30 * (matching_types.length : Int),
       r0 ++ ["Actividad de tipo " ++ apos ++ m ++ apos ++ " ayuda en tu situación"])
  let s2 := if p.activity_types.any (fun a => avoid.contains a) then sr1.1 - 50 else sr1.1
  let nombre_lower := pyLower p.nombre
  let matching_kw := keywords.filter fun kw => pyIn (pyLower kw) nombre_lower
  let sr3 : Int × List String :=
    match matching_kw with
    | [] => (s2, sr1.2)
    | _ :: _ =>
      (s2 + 15 * (matching_kw.length : Int),
       sr1.2 ++ ["Incluye: " ++ String.intercalate ", " (matching_kw.take 2)])
  let sr4 : Int × List String :=
    if p.promocion then (sr3.1 + 5, sr3.2 ++ ["En promoción"]) else sr3
  hobbies.foldl
    (fun (acc : Int × List String) hobby =>
      let hobby_lower := pyLower hobby
      if pyIn hobby_lower nombre_lower || pyIn hobby_lower (pyLower p.subcategoria) then
        (acc.1 + 10, acc.2 ++ ["Conecta con tu interés en " ++ hobby])
      else acc)
    sr4

/-- The candidate list built by the scoring loop: one `Recommendation`
per product whose score is strictly positive, in catalog order. -/
def recommendAll (products : List Product) (profile : UserProfile)
    (situation : Situation) : List Recommendation :=
  let config := get_config situation.type
  products.filterMap fun p =>
    let sr := scoreAndReasons config.beneficial config.avoid config.keywords profile.hobbies p
    if sr.1 > 0 then some ⟨p, sr.1, sr.2⟩ else none

-- ===========================================================================
-- RecommendationEngine.recommend: stable descending sort and slicing
-- ===========================================================================

/-- The order used by `recommendations.sort(key=..., reverse=True)`:
`a` may precede `b` when the score of `a` is at least that of `b`. -/
def recLE (a b : Recommendation) : Prop :=
  b.score ≤ a.score

instance : DecidableRel recLE := fun a b => Int.decLe b.score a.score

instance : IsTotal Recommendation recLE :=
  ⟨fun a b => le_total b.score a.score⟩

instance : IsTrans Recommendation recLE :=
  ⟨fun _ _ _ h1 h2 => le_trans h2 h1⟩

/-- Python `list.sort(key=lambda r: r.score, reverse=True)`: the unique
stable descending reordering, realised by insertion sort (a later
element is inserted after every earlier element of equal score). -/
def sortDesc (l : List Recommendation) : List Recommendation :=
  l.insertionSort recLE

/-- Python slicing `l[:n]` for an integer `n`: the first `n` elements
when `n` is non-negative, all but the last `-n` elements otherwise. -/
def pySlice {α : Type} (l : List α) (n : Int) : List α :=
  if 0 ≤ n then l.take n.toNat else l.take ((l.length : Int) + n).toNat

/-- Embeds `RecommendationEngine.recommend`, with the loaded catalog passed
explicitly as `products`. -/
def recommend (products : List Product) (profile : UserProfile)
    (situation : Situation) (top_n : Int) : List Recommendation :=
  if products.isEmpty then []
  else pySlice (sortDesc (recommendAll products profile situation)) top_n

-- ===========================================================================
-- EmpathicMessageGenerator
-- ===========================================================================

/-- Embeds `EmpathicMessageGenerator.CONFRONTATION`, in source order. -/
def CONFRONTATION : List (String × List (String × String)) :=
  [ ("perdida_familiar",
     [ ("padres", "enfrentarte a la pérdida de tus padres"),
       ("pareja", "atravesar la pérdida de tu compañero/a de vida"),
       ("hijo", "sobrellevar la pérdida más difícil que existe"),
       ("hermano", "procesar la partida de tu hermano/a"),
       ("general", "enfrentar la partida de alguien que amabas") ]),
    ("ruptura_amorosa",
     [ ("reciente", "procesar el fin de una relación importante"),
       ("larga", "cerrar un capítulo significativo de tu vida"),
       ("general", "sanar después de una ruptura") ]),
    ("ansiedad",
     [ ("laboral", "manejar la presión que el trabajo pone sobre ti"),
       ("social", "navegar el peso de las interacciones sociales"),
       ("general", "lidiar con pensamientos que no te dan tregua") ]),
    ("soledad",
     [ ("mudanza", "construir conexiones en un lugar nuevo"),
       ("aislamiento", "romper el ciclo de aislamiento"),
       ("general", "encontrar tu lugar entre otros") ]),
    ("estres_laboral",
     [ ("burnout", "recuperarte del agotamiento profesional"),
       ("presion", "sostener el peso de múltiples responsabilidades"),
       ("general", "encontrar equilibrio entre trabajo y vida") ]),
    ("duelo",
     [ ("reciente", "atravesar los primeros momentos del duelo"),
       ("prolongado", "continuar tu camino mientras honras la memoria"),
       ("general", "procesar una pérdida profunda") ]) ]

/-- Embeds `EmpathicMessageGenerator.CALMING`, in source order. -/
def CALMING : List (String × List String) :=
  [ ("perdida_familiar",
     [ "Este dolor es parte de haber amado profundamente.",
       "No hay tiempo correcto para sanar, solo el tuyo.",
       "Cada día que enfrentas es un acto de valentía." ]),
    ("ruptura_amorosa",
     [ "Lo que sientes ahora no es permanente.",
       "El vacío actual dejará espacio para algo nuevo.",
       "Mereces tiempo para reconstruirte." ]),
    ("ansiedad",
     [ "La calma es una habilidad que se entrena.",
       "Tu mente trabaja de más tratando de protegerte.",
       "Pequeños momentos de paz se acumulan." ]),
    ("soledad",
     [ "Buscar conexión es señal de fortaleza.",
       "Las mejores amistades empiezan con un primer paso.",
       "Tu presencia tiene valor aunque no lo sientas." ]),
    ("estres_laboral",
     [ "Tu valor no se mide en horas trabajadas.",
       "Descansar es parte del trabajo bien hecho.",
       "Nadie funciona bien con el tanque vacío." ]),
    ("duelo",
     [ "El duelo no es algo que superar, sino integrar.",
       "Honrar lo que perdiste también es vivir.",
       "No tienes que estar bien, solo tienes que seguir." ]) ]

/-- Embeds `EmpathicMessageGenerator.ACTIVITY_BENEFITS`, in source order. -/
def ACTIVITY_BENEFITS : List (String × String) :=
  [ ("naturaleza", "la naturaleza tiene un efecto restaurador comprobado"),
    ("agua", "el agua ayuda a liberar tensiones acumuladas"),
    ("mindfulness", "calmar la mente es el primer paso hacia la paz interior"),
    ("ejercicio", "el movimiento físico libera tensión y mejora el ánimo"),
    ("social", "conectar con otros nos recuerda que no estamos solos"),
    ("baja_estimulacion", "a veces el mejor paso es simplemente pausar"),
    ("expresion_artistica", "expresar lo que las palabras no alcanzan"),
    ("turismo", "cambiar de ambiente ayuda a ganar perspectiva") ]

/-- Embeds `EmpathicMessageGenerator._connect_hobby`: first hobby occurring in
the case-folded name-plus-subcategory text wins; otherwise the first
hobby, if any, is used in the weaker phrasing. -/
def connectHobby (hobbies : List String) (product : Product) : String :=
  let product_text := pyLower (product.nombre ++ " " ++ product.subcategoria)
  match hobbies.find? (fun hobby => pyIn (pyLower hobby) product_text) with
  | some hobby =>
    "aprovechando tu gusto por " ++ pyLower hobby ++ ", te recomendamos " ++ product.nombre
  | none =>
    match hobbies with
    | hobby :: _ =>
      "combinando tu interés en " ++ pyLower hobby ++ " con algo nuevo, te sugerimos "
        ++ product.nombre
    | [] => "te recomendamos " ++ product.nombre

/-- Embeds `EmpathicMessageGenerator._get_benefit`: the benefit sentence of the
first activity type present in the benefit table, or the empty string. -/
def getBenefit (activity_types : List String) : String :=
  match activity_types.find? (fun a => (ACTIVITY_BENEFITS.lookup a).isSome) with
  | some a => (ACTIVITY_BENEFITS.lookup a).getD ""
  | none => ""

/-- Python `s.rfind(c)` on a character list: index of the last
occurrence, `-1` when absent. -/
def lastIdxOf (c : Char) : List Char → Int
  | [] => -1
  | x :: xs =>
    let r := lastIdxOf c xs
    if 0 ≤ r then r + 1
    else if x == c then 0 else -1

/-- The truncation step at the end of `generate`: messages over 500
characters are cut at the last period inside the first 497 characters
when that period sits past position 300, and otherwise cut at 497
characters with an ellipsis appended. -/
def pyTruncate (message : String) : String :=
  let cs := message.toList
  if 500 < cs.length then
    let last_period := lastIdxOf '.' (cs.take 497)
    if 300 < last_period then (cs.take (last_period.toNat + 1)).asString
    else (cs.take 497).asString ++ "..."
  else message

/-- Embeds `EmpathicMessageGenerator.generate`.  `calmIdx` stands for the
`random.choice` over the calming pool: the chosen element is
`calm_options[calmIdx % len(calm_options)]`, which ranges over exactly
the elements `random.choice` can return. -/
def generate (profile : UserProfile) (situation : Situation)
    (recommendations : List Recommendation) (calmIdx : Nat) : String :=
  match recommendations with
  | [] => profile.name ++ ", estamos buscando las mejores opciones para ti."
  | top_rec :: _ =>
    let sit_phrases := (CONFRONTATION.lookup situation.type).getD []
    let confrontation := (sit_phrases.lookup situation.subtype).getD
      ((sit_phrases.lookup "general").getD "enfrentar este momento")
    let calm_options := (CALMING.lookup situation.type).getD ["Lo que sientes es válido."]
    let calming := calm_options.getD (calmIdx % calm_options.length) ""
    let hobby_phrase := connectHobby profile.hobbies top_rec.product
    let benefit := getBenefit top_rec.product.activity_types
    let m1 := profile.name ++ ", sé que hoy te toca " ++ confrontation ++ ". "
      ++ calming ++ " Por eso, " ++ hobby_phrase
    let m2 := if benefit.isEmpty then m1 else m1 ++ " — " ++ benefit ++ "."
    let m3 :=
      match profile.goals with
      | [] => m2
      | goal :: _ =>
        if m2.length < 420 then m2 ++ " Un paso hacia " ++ pyLower goal ++ "." else m2
    pyTruncate m3

-- ===========================================================================
-- Concrete fixtures used by witnesses and counterexamples
-- ===========================================================================

/-- A profile with one hobby. -/
def profYoga : UserProfile :=
  ⟨"u1", "Ana", 30, "femenino", ["yoga"], []⟩

/-- A profile with no hobbies and no goals. -/
def profPlain : UserProfile :=
  ⟨"u0", "Ana", 30, "femenino", [], []⟩

/-- A situation type absent from the knowledge base. -/
def sitUnknown : Situation :=
  ⟨"tipo_desconocido", "x", "ctx"⟩

/-- The bereavement situation of the source demo. -/
def sitPerdida : Situation :=
  ⟨"perdida_familiar", "padres", ""⟩

/-- A promotional product matching nothing else. -/
def prodPromo : Product :=
  ⟨"a", "escalada urbana", "", "", 0, "", "", true, none, ["general"], []⟩

/-- A promotional product whose name contains the hobby `yoga`. -/
def prodYoga : Product :=
  ⟨"b", "clase de yoga", "", "", 0, "", "", true, none, ["general"], []⟩

/-- A two-entry catalog in which both entries score positively for
`profYoga` in `sitUnknown` (15 and 5 points). -/
def demoCatalog : List Product :=
  [prodPromo, prodYoga]

/-- A promotional product carrying a trait from the avoid set of
`perdida_familiar` and no beneficial trait. -/
def prodFiesta : Product :=
  ⟨"c", "zzz", "", "", 0, "", "", true, none, ["fiesta"], []⟩

/-- An entry carrying a beneficial trait for `perdida_familiar` and a
matching situation keyword in its name. -/
def prodNatura : Product :=
  ⟨"d", "caminata ecológica", "", "", 0, "", "", false, none, ["naturaleza"], []⟩

/-- A profile whose display name has 453 characters. -/
def longProfile : UserProfile :=
  ⟨"u9", (List.replicate 453 'a').asString, 30, "x", [], []⟩

/-- A raw catalog record with no identifier and no name, flagged as
promotional. -/
def rawMalformed : RawProduct :=
  ⟨none, none, none, none, none, none, none, some true, none⟩

/-- The combined keyword, promotion and hobby bonuses of an entry: the
non-trait part of the score, named for the statements about the avoid
penalty. -/
def bonusPart (profile : UserProfile) (situation : Situation) (p : Product) : Int :=
  15 * (((get_config situation.type).keywords.countP fun k =>
      pyIn (pyLower k) (pyLower p.nombre)) : Int)
  + (if p.promocion then 5 else 0)
  + 10 * ((profile.hobbies.countP fun h =>
      pyIn (pyLower h) (pyLower p.nombre) || pyIn (pyLower h) (pyLower p.subcategoria)) : Int)

-- ===========================================================================
-- Helper lemmas
-- ===========================================================================

lemma listIsPref_self_append : ∀ (as bs : List Char), listIsPref as (as ++ bs) = true
  | [], _ => rfl
  | a :: as, bs => by
    simp [listIsPref, listIsPref_self_append as bs]

lemma listHasSub_self_append (as bs : List Char) : listHasSub as (as ++ bs) = true := by
  cases as with
  | nil =>
    cases bs with
    | nil => rfl
    | cons c t => simp [listHasSub]; exact Or.inl rfl
  | cons a as' =>
    simp [listHasSub]
    exact Or.inl (listIsPref_self_append (a :: as') bs)

/-- A string is a Python-substring of itself followed by anything. -/
lemma pyIn_self_append (a b : String) : pyIn a (a ++ b) = true := by
  show listHasSub a.toList (a.toList ++ b.toList) = true
  exact listHasSub_self_append _ _

lemma lastIdxOf_lt_length (c : Char) : ∀ (l : List Char), lastIdxOf c l < (l.length : Int)
  | [] => by simp [lastIdxOf]
  | x :: xs => by
    have ih := lastIdxOf_lt_length c xs
    simp only [lastIdxOf, List.length_cons]
    split
    · push_cast; omega
    · split <;> push_cast <;> omega

/-- The truncation step never returns more than 500 characters. -/
lemma pyTruncate_length_le (m : String) : (pyTruncate m).length ≤ 500 := by
  unfold pyTruncate
  by_cases h : 500 < m.toList.length
  · rw [if_pos h]
    have hlt := lastIdxOf_lt_length '.' (m.toList.take 497)
    have hlen : (m.toList.take 497).length = 497 := by
      rw [List.length_take]; omega
    rw [hlen] at hlt
    dsimp only
    split
    · show ((m.toList.take _).asString).length ≤ 500
      have heq : ((m.toList.take ((lastIdxOf '.' (m.toList.take 497)).toNat + 1)).asString).length
          = (m.toList.take ((lastIdxOf '.' (m.toList.take 497)).toNat + 1)).length := rfl
      rw [heq, List.length_take]
      omega
    · rw [String.length_append]
      have heq : ((m.toList.take 497).asString).length = (m.toList.take 497).length := rfl
      rw [heq, hlen]
      have hdots : ("..." : String).length = 3 := rfl
      omega
  · rw [if_neg h]
    have : m.toList.length = m.length := rfl
    omega

/-- The loading loop keeps exactly the first occurrence of every
identifier value, converting and tagging each kept record. -/
lemma loadGo_eq_firstOccurrences :
    ∀ (raws : List RawProduct) (seen : List (Option String)),
      loadGo raws seen
        = (firstOccurrences raws seen).map fun raw => tag_product (toProduct raw)
  | [], _ => rfl
  | raw :: rest, seen => by
    unfold loadGo firstOccurrences
    by_cases h : seen.contains raw.idField = true
    · rw [if_pos h, if_pos h, loadGo_eq_firstOccurrences rest]
    · rw [if_neg h, if_neg h, List.map_cons, loadGo_eq_firstOccurrences rest]

/-- Closed form of the hobby-bonus loop. -/
lemma foldl_hobbies (nl sl : String) :
    ∀ (hs : List String) (init : Int × List String),
      hs.foldl
        (fun (acc : Int × List String) hobby =>
          if pyIn (pyLower hobby) nl || pyIn (pyLower hobby) sl then
            (acc.1 + 10, acc.2 ++ ["Conecta con tu interés en " ++ hobby])
          else acc) init
      = (init.1 + 10 * ((hs.countP fun hobby =>
            pyIn (pyLower hobby) nl || pyIn (pyLower hobby) sl) : Int),
         init.2 ++ (hs.filter fun hobby =>
            pyIn (pyLower hobby) nl || pyIn (pyLower hobby) sl).map
            fun hobby => "Conecta con tu interés en " ++ hobby)
  | [], init => by simp
  | h :: hs, init => by
    simp only [List.foldl_cons]
    rw [foldl_hobbies nl sl hs]
    rw [List.countP_cons, List.filter_cons]
    by_cases hp : (pyIn (pyLower h) nl || pyIn (pyLower h) sl) = true
    · rw [if_pos hp, if_pos hp, if_pos hp]
      refine Prod.ext ?_ ?_ <;> dsimp only
      · push_cast; ring
      · simp
    · rw [if_neg hp, if_neg hp, if_neg hp]
      simp

/-- Closed form of the score computed by the scoring loop body. -/
lemma scoreAndReasons_fst (b av kw hb : List String) (p : Product) :
    (scoreAndReasons b av kw hb p).1 =
      30 * (((p.activity_types.filter fun a => b.contains a).length) : Int)
      + (if p.activity_types.any (fun a => av.contains a) then -50 else 0)
      + 15 * (((kw.filter fun k => pyIn (pyLower k) (pyLower p.nombre)).length) : Int)
      + (if p.promocion then 5 else 0)
      + 10 * (((hb.filter fun h =>
          pyIn (pyLower h) (pyLower p.nombre)
            || pyIn (pyLower h) (pyLower p.subcategoria)).length) : Int) := by
  simp only [scoreAndReasons, foldl_hobbies]
  rw [List.countP_eq_length_filter]
  rcases hT : p.activity_types.filter (fun a => b.contains a) with _ | ⟨m, ms⟩ <;>
    rcases hK : kw.filter (fun k => pyIn (pyLower k) (pyLower p.nombre)) with _ | ⟨k1, ks⟩ <;>
    dsimp only <;>
    split_ifs <;>
    dsimp only <;>
    push_cast [List.length_nil, List.length_cons] <;>
    ring

/-- Closed form of the reasons accumulated by the scoring loop body. -/
lemma scoreAndReasons_snd (b av kw hb : List String) (p : Product) :
    (scoreAndReasons b av kw hb p).2 =
      (if (p.activity_types.filter fun a => b.contains a).isEmpty then []
       else ["Actividad de tipo " ++ apos
          ++ (p.activity_types.filter fun a => b.contains a).headD "" ++ apos
          ++ " ayuda en tu situación"])
      ++ (if (kw.filter fun k => pyIn (pyLower k) (pyLower p.nombre)).isEmpty then []
          else ["Incluye: " ++ String.intercalate ", "
            ((kw.filter fun k => pyIn (pyLower k) (pyLower p.nombre)).take 2)])
      ++ (if p.promocion then ["En promoción"] else [])
      ++ ((hb.filter fun h =>
          pyIn (pyLower h) (pyLower p.nombre)
            || pyIn (pyLower h) (pyLower p.subcategoria)).map
          fun h => "Conecta con tu interés en " ++ h) := by
  simp only [scoreAndReasons, foldl_hobbies]
  rcases hT : p.activity_types.filter (fun a => b.contains a) with _ | ⟨m, ms⟩ <;>
    rcases hK : kw.filter (fun k => pyIn (pyLower k) (pyLower p.nombre)) with _ | ⟨k1, ks⟩ <;>
    dsimp only <;>
    split_ifs <;>
    simp_all

/-- A strictly positive score forces at least one recorded reason. -/
lemma reasons_ne_nil_of_score_pos (b av kw hb : List String) (p : Product)
    (hpos : 0 < (scoreAndReasons b av kw hb p).1) :
    (scoreAndReasons b av kw hb p).2 ≠ [] := by
  intro hnil
  rw [scoreAndReasons_snd] at hnil
  rw [scoreAndReasons_fst] at hpos
  rcases List.append_eq_nil.mp hnil with ⟨h123, h4⟩
  rcases List.append_eq_nil.mp h123 with ⟨h12, h3⟩
  rcases List.append_eq_nil.mp h12 with ⟨h1, h2⟩
  have hT : (p.activity_types.filter fun a => b.contains a) = [] := by
    by_contra hne
    rw [if_neg (by simpa [List.isEmpty_iff] using hne)] at h1
    exact absurd h1 (by simp)
  have hK : (kw.filter fun k => pyIn (pyLower k) (pyLower p.nombre)) = [] := by
    by_contra hne
    rw [if_neg (by simpa [List.isEmpty_iff] using hne)] at h2
    exact absurd h2 (by simp)
  have hP : p.promocion = false := by
    by_contra hne
    rw [if_pos (by simpa using hne)] at h3
    exact absurd h3 (by simp)
  have hH : (hb.filter fun h =>
      pyIn (pyLower h) (pyLower p.nombre)
        || pyIn (pyLower h) (pyLower p.subcategoria)) = [] :=
    List.map_eq_nil_iff.mp h4
  rw [hT, hK, hH, hP] at hpos
  simp at hpos
  split_ifs at hpos <;> omega

/-- Elements of a Python slice come from the sliced list. -/
lemma mem_pySlice {α : Type} {l : List α} {n : Int} {a : α} (h : a ∈ pySlice l n) : a ∈ l := by
  unfold pySlice at h
  split at h <;> exact List.take_subset _ _ h

/-- The stable sort does not change the member set. -/
lemma mem_sortDesc {l : List Recommendation} {x : Recommendation} :
    x ∈ sortDesc l ↔ x ∈ l :=
  List.mem_insertionSort recLE

/-- Stability of the sort: every score class keeps its original order. -/
lemma sortDesc_stable (l : List Recommendation) (s : Int) :
    (sortDesc l).filter (fun r => r.score == s) = l.filter (fun r => r.score == s) := by
  have hpair : (l.filter fun r => r.score == s).Pairwise recLE := by
    apply List.pairwise_of_forall_mem_list
    intro a ha b hb
    have ha3 : a.score = s := by simpa using (List.mem_filter.mp ha).2
    have hb3 : b.score = s := by simpa using (List.mem_filter.mp hb).2
    unfold recLE
    omega
  have hsub : (l.filter fun r => r.score == s).Sublist (sortDesc l) :=
    List.sublist_insertionSort hpair (List.filter_sublist l)
  have hsub2 := hsub.filter (fun r => r.score == s)
  rw [List.filter_filter] at hsub2
  have heq : (List.filter (fun a => (a.score == s) && (a.score == s)) l)
      = l.filter (fun r => r.score == s) :=
    List.filter_congr (by intro x _; simp)
  rw [heq] at hsub2
  have hperm : ((sortDesc l).filter fun r => r.score == s).Perm
      (l.filter fun r => r.score == s) :=
    (List.perm_insertionSort recLE l).filter _
  exact (hsub2.eq_of_length hperm.length_eq.symm).symm

/-- A value returned by an association-list lookup is one of the stored
values. -/
lemma lookup_val_mem {β : Type} :
    ∀ (l : List (String × β)) (t : String) (v : β),
      l.lookup t = some v → v ∈ l.map Prod.snd
  | [], _, _, h => by simp [List.lookup] at h
  | (k, b) :: es, t, v, h => by
    rw [List.lookup_cons] at h
    cases hkt : (t == k) with
    | true =>
      rw [hkt] at h
      have hbv : b = v := by simpa using h
      rw [List.map_cons, hbv]
      exact List.mem_cons_self _ _
    | false =>
      rw [hkt] at h
      exact List.mem_cons_of_mem _ (lookup_val_mem es t v h)

/-- Every keyword stored in the knowledge base is already lower case. -/
lemma get_config_keywords_lower (t : String) (k : String)
    (hk : k ∈ (get_config t).keywords) : pyLower k = k := by
  have hcases : (get_config t) ∈ SITUATION_CONFIG.map Prod.snd
      ∨ (get_config t)
        = { beneficial := [], avoid := [], keywords := [], description := "" } := by
    unfold get_config
    cases h : SITUATION_CONFIG.lookup t with
    | none => right; rfl
    | some cfg => left; simpa using lookup_val_mem _ _ _ h
  rcases hcases with hmem | hdef
  · simp only [SITUATION_CONFIG, List.map_cons, List.map_nil, List.mem_cons,
      List.not_mem_nil, or_false] at hmem
    rcases hmem with h | h | h | h | h | h <;>
      rw [h] at hk <;>
      fin_cases hk <;>
      decide
  · rw [hdef] at hk
    simp at hk

/-- What membership in the result of `recommend` implies: the element
comes from a catalog product with a strictly positive score and carries
exactly that score and those reasons. -/
lemma mem_recommend {products : List Product} {profile : UserProfile}
    {situation : Situation} {top_n : Int} {r : Recommendation}
    (h : r ∈ recommend products profile situation top_n) :
    ∃ p ∈ products,
      0 < (scoreAndReasons (get_config situation.type).beneficial
          (get_config situation.type).avoid (get_config situation.type).keywords
          profile.hobbies p).1
      ∧ r = ⟨p,
          (scoreAndReasons (get_config situation.type).beneficial
            (get_config situation.type).avoid (get_config situation.type).keywords
            profile.hobbies p).1,
          (scoreAndReasons (get_config situation.type).beneficial
            (get_config situation.type).avoid (get_config situation.type).keywords
            profile.hobbies p).2⟩ := by
  unfold recommend at h
  split at h
  · simp at h
  · have h1 : r ∈ sortDesc (recommendAll products profile situation) := mem_pySlice h
    have h2 : r ∈ recommendAll products profile situation := mem_sortDesc.mp h1
    unfold recommendAll at h2
    rcases List.mem_filterMap.mp h2 with ⟨p, hp, hfp⟩
    refine ⟨p, hp, ?_⟩
    dsimp only at hfp
    split at hfp
    · cases hfp
      exact ⟨by assumption, rfl⟩
    · exact absurd hfp (by simp)

-- ===========================================================================
-- Claim theorems
-- ===========================================================================

/-- C6: tagging is idempotent: applying `tag_product` to an already
tagged entry yields exactly the same activity-trait set and the same
situation-tag set as tagging it once. -/
theorem C6_tag_idempotent (p : Product) :
    (tag_product (tag_product p)).activity_types = (tag_product p).activity_types
    ∧ (tag_product (tag_product p)).situation_tags = (tag_product p).situation_tags :=
  ⟨rfl, rfl⟩

/-- C5: with an empty loaded catalog, `recommend` returns the empty
list for every profile, situation and bound, and `generate` applied to
an empty ranked list returns a fallback message containing the profile
name. -/
theorem C5_empty_catalog :
    (∀ (profile : UserProfile) (situation : Situation) (top_n : Int),
        recommend [] profile situation top_n = [])
    ∧ (∀ (profile : UserProfile) (situation : Situation) (calmIdx : Nat),
        pyIn profile.name (generate profile situation [] calmIdx) = true) := by
  constructor
  · intro profile situation top_n
    rfl
  · intro profile situation calmIdx
    exact pyIn_self_append profile.name ", estamos buscando las mejores opciones para ti."

/-- C2: for every profile, situation and catalog entry, the score is
exactly 30 points per beneficial trait, a single flat −50 when any
trait is in the avoid set, 15 points per situation keyword occurring in
the lower-cased name, 5 points when promotional, and 10 points per
hobby occurring in the lower-cased name or subcategory. -/
theorem C2_score_formula (profile : UserProfile) (situation : Situation) (p : Product) :
    (scoreAndReasons (get_config situation.type).beneficial (get_config situation.type).avoid
        (get_config situation.type).keywords profile.hobbies p).1 =
      30 * ((p.activity_types.countP fun a =>
          (get_config situation.type).beneficial.contains a) : Int)
      + (if p.activity_types.any (fun a => (get_config situation.type).avoid.contains a)
          then -50 else 0)
      + 15 * (((get_config situation.type).keywords.countP fun k =>
          pyIn k (pyLower p.nombre)) : Int)
      + (if p.promocion then 5 else 0)
      + 10 * ((profile.hobbies.countP fun h =>
          pyIn (pyLower h) (pyLower p.nombre)
            || pyIn (pyLower h) (pyLower p.subcategoria)) : Int)
    ∧ ((p.activity_types.filter fun a =>
          (get_config situation.type).beneficial.contains a) ≠ [] →
        (scoreAndReasons (get_config situation.type).beneficial
            (get_config situation.type).avoid (get_config situation.type).keywords
            profile.hobbies p).2.head?
          = some ("Actividad de tipo " ++ apos
              ++ (p.activity_types.filter fun a =>
                  (get_config situation.type).beneficial.contains a).headD ""
              ++ apos ++ " ayuda en tu situación")) := by
  constructor
  · rw [scoreAndReasons_fst]
    have hkw : ((get_config situation.type).keywords.countP fun k =>
          pyIn (pyLower k) (pyLower p.nombre))
        = ((get_config situation.type).keywords.countP fun k =>
          pyIn k (pyLower p.nombre)) := by
      apply List.countP_congr
      intro k hk
      rw [get_config_keywords_lower situation.type k hk]
    rw [← hkw]
    rw [List.countP_eq_length_filter, List.countP_eq_length_filter,
      List.countP_eq_length_filter]
  · intro hne
    rw [scoreAndReasons_snd]
    rw [if_neg (by simpa [List.isEmpty_iff] using hne)]
    rfl

/-- C3: no element of a `recommend` result has score less than or equal
to zero: entries scoring at most 0 are excluded entirely. -/
theorem C3_result_scores_positive (products : List Product) (profile : UserProfile)
    (situation : Situation) (top_n : Int) (r : Recommendation)
    (h : r ∈ recommend products profile situation top_n) : 0 < r.score := by
  rcases mem_recommend h with ⟨p, _, hpos, hr⟩
  rw [hr]
  exact hpos

/-- C3 witness: a concrete positively scored entry appearing in a
concrete result. -/
theorem C3_result_scores_positive_witness :
    ((⟨prodYoga, 15, ["En promoción", "Conecta con tu interés en yoga"]⟩ : Recommendation)
        ∈ recommend demoCatalog profYoga sitUnknown 3)
    ∧ 0 < (⟨prodYoga, 15,
        ["En promoción", "Conecta con tu interés en yoga"]⟩ : Recommendation).score :=
  ⟨by decide, C3_result_scores_positive demoCatalog profYoga sitUnknown 3 _ (by decide)⟩

/-- C10: every element of a `recommend` result carries a non-empty
reasons list, because a strictly positive score requires at least one
bonus component and every bonus component records a reason. -/
theorem C10_reasons_nonempty (products : List Product) (profile : UserProfile)
    (situation : Situation) (top_n : Int) (r : Recommendation)
    (h : r ∈ recommend products profile situation top_n) : r.reasons ≠ [] := by
  rcases mem_recommend h with ⟨p, _, hpos, hr⟩
  rw [hr]
  exact reasons_ne_nil_of_score_pos _ _ _ _ _ hpos

/-- C10 witness: a concrete result element with its non-empty reasons. -/
theorem C10_reasons_nonempty_witness :
    ((⟨prodPromo, 5, ["En promoción"]⟩ : Recommendation)
        ∈ recommend demoCatalog profYoga sitUnknown 3)
    ∧ (⟨prodPromo, 5, ["En promoción"]⟩ : Recommendation).reasons ≠ [] :=
  ⟨by decide, C10_reasons_nonempty demoCatalog profYoga sitUnknown 3 _ (by decide)⟩

/-- C4 (amended to non-negative bounds): for every `top_n ≥ 0` the
result is the first `top_n` elements of the positively scored entries
in stable descending score order - the sorted list is pairwise
descending, is a permutation of the candidate list, preserves the
candidate order inside every score class, and the result length is at
most `top_n`. -/
theorem C4_sorted_take_amended (products : List Product) (profile : UserProfile)
    (situation : Situation) (n : Nat) :
    recommend products profile situation (n : Int)
        = (sortDesc (recommendAll products profile situation)).take n
    ∧ (sortDesc (recommendAll products profile situation)).Pairwise
        (fun a b => b.score ≤ a.score)
    ∧ (sortDesc (recommendAll products profile situation)).Perm
        (recommendAll products profile situation)
    ∧ (∀ s : Int,
        (sortDesc (recommendAll products profile situation)).filter (fun r => r.score == s)
          = (recommendAll products profile situation).filter (fun r => r.score == s))
    ∧ (recommend products profile situation (n : Int)).length ≤ n := by
  have htake : recommend products profile situation (n : Int)
      = (sortDesc (recommendAll products profile situation)).take n := by
    cases products with
    | nil => simp [recommend, recommendAll, sortDesc, List.insertionSort]
    | cons q qs =>
      show pySlice (sortDesc (recommendAll (q :: qs) profile situation)) (n : Int)
          = (sortDesc (recommendAll (q :: qs) profile situation)).take n
      unfold pySlice
      rw [if_pos (Int.natCast_nonneg n), Int.toNat_natCast]
  refine ⟨htake, ?_, ?_, ?_, ?_⟩
  · exact List.sorted_insertionSort recLE _
  · exact List.perm_insertionSort recLE _
  · intro s
    exact sortDesc_stable _ s
  · rw [htake, List.length_take]
    exact min_le_left _ _

/-- C4 counterexample: with the two-entry demo catalog and
`top_n = -1` the result has length 1, which is not at most `top_n`, so
the claim fails for negative bounds. -/
theorem C4_take_counterexample :
    (recommend demoCatalog profYoga sitUnknown (-1)).length = 1
    ∧ ¬ (((recommend demoCatalog profYoga sitUnknown (-1)).length : Int) ≤ -1) := by
  decide

/-- C7 (amended): a negative `top_n` does not raise any validation
error: `recommend` is total and applies Python slice semantics,
returning the stably sorted positive-score list with its last `-top_n`
elements removed. -/
theorem C7_negative_topn_amended (products : List Product) (profile : UserProfile)
    (situation : Situation) (k : Nat) :
    recommend products profile situation (-((k : Int) + 1))
      = (sortDesc (recommendAll products profile situation)).take
          ((recommendAll products profile situation).length - (k + 1)) := by
  cases products with
  | nil => simp [recommend, recommendAll, sortDesc, List.insertionSort]
  | cons q qs =>
    show pySlice (sortDesc (recommendAll (q :: qs) profile situation)) (-((k : Int) + 1))
        = (sortDesc (recommendAll (q :: qs) profile situation)).take
            ((recommendAll (q :: qs) profile situation).length - (k + 1))
    unfold pySlice
    rw [if_neg (by omega)]
    have hlen : (sortDesc (recommendAll (q :: qs) profile situation)).length
        = (recommendAll (q :: qs) profile situation).length :=
      List.length_insertionSort recLE _
    rw [hlen]
    congr 1
    omega

/-- C7 counterexample: at `top_n = -1` the call does not fail - it
returns a partial result, dropping the lowest scored entry that the
`top_n = 2` call still returns. -/
theorem C7_negative_topn_counterexample :
    recommend demoCatalog profYoga sitUnknown (-1)
        = [⟨prodYoga, 15, ["En promoción", "Conecta con tu interés en yoga"]⟩]
    ∧ recommend demoCatalog profYoga sitUnknown 2
        = [⟨prodYoga, 15, ["En promoción", "Conecta con tu interés en yoga"]⟩,
           ⟨prodPromo, 5, ["En promoción"]⟩] := by
  decide

/-- C1 (amended to non-empty ranked lists): whenever at least one
ranked match is passed in, the generated message is at most 500
characters long, for every profile, situation and calming choice. -/
theorem C1_compose_length_amended (profile : UserProfile) (situation : Situation)
    (r : Recommendation) (rest : List Recommendation) (calmIdx : Nat) :
    (generate profile situation (r :: rest) calmIdx).length ≤ 500 := by
  simp only [generate]
  exact pyTruncate_length_le _

/-- C1 counterexample: with an empty ranked list the fallback message
is not truncated, so a 453-character profile name produces a
501-character message. -/
theorem C1_compose_length_counterexample :
    ¬ ((generate longProfile sitUnknown [] 0).length ≤ 500) := by
  decide

/-- C8 (amended): loading rejects nothing for a missing name or
identifier - it keeps the first occurrence of every identifier value
(including the missing-identifier marker), fills absent fields with
defaults, and tags the result. -/
theorem C8_load_characterisation (raws : List RawProduct) :
    loadProducts raws
      = (firstOccurrences raws []).map fun raw => tag_product (toProduct raw) :=
  loadGo_eq_firstOccurrences raws []

/-- C8 counterexample: a record with no identifier and no name is
loaded (not rejected) and then appears as a scored recommendation. -/
theorem C8_malformed_loaded_counterexample :
    rawMalformed.idField = none
    ∧ rawMalformed.nombreField = none
    ∧ recommend (loadProducts [rawMalformed]) profPlain sitUnknown 3
        = [⟨tag_product (toProduct rawMalformed), 5, ["En promoción"]⟩] := by
  decide

/-- C9 (amended): an entry with an avoid trait and no beneficial trait
scores exactly its keyword/promotion/hobby bonuses minus 50, and is
excluded from every result whenever those bonuses total under 50. -/
theorem C9_avoid_penalty_amended (profile : UserProfile) (situation : Situation)
    (p : Product)
    (h1 : ∃ a ∈ p.activity_types, a ∈ (get_config situation.type).avoid)
    (h2 : ∀ a ∈ p.activity_types, a ∉ (get_config situation.type).beneficial) :
    (scoreAndReasons (get_config situation.type).beneficial (get_config situation.type).avoid
        (get_config situation.type).keywords profile.hobbies p).1
      = bonusPart profile situation p - 50
    ∧ (bonusPart profile situation p < 50 →
        ∀ (products : List Product) (top_n : Int) (r : Recommendation),
          r ∈ recommend products profile situation top_n → r.product ≠ p) := by
  have hT : (p.activity_types.filter fun a =>
      (get_config situation.type).beneficial.contains a) = [] := by
    rw [List.filter_eq_nil_iff]
    intro a ha
    simpa using h2 a ha
  have hA : (p.activity_types.any fun a =>
      (get_config situation.type).avoid.contains a) = true := by
    rw [List.any_eq_true]
    rcases h1 with ⟨a, ha, hav⟩
    exact ⟨a, ha, by simpa using hav⟩
  have hscore : (scoreAndReasons (get_config situation.type).beneficial
      (get_config situation.type).avoid (get_config situation.type).keywords
      profile.hobbies p).1 = bonusPart profile situation p - 50 := by
    rw [scoreAndReasons_fst]
    unfold bonusPart
    rw [hT, hA]
    rw [List.countP_eq_length_filter, List.countP_eq_length_filter]
    simp
    ring
  refine ⟨hscore, ?_⟩
  intro hb products top_n r hmem hrp
  rcases mem_recommend hmem with ⟨q, _, hqpos, hq⟩
  rw [hq] at hrp
  dsimp only at hrp
  rw [hrp] at hqpos
  rw [hscore] at hqpos
  omega

/-- C9 witness: the amended statement instantiated at a concrete
avoid-trait entry under the bereavement situation. -/
theorem C9_avoid_penalty_witness :
    ((scoreAndReasons (get_config sitPerdida.type).beneficial
        (get_config sitPerdida.type).avoid (get_config sitPerdida.type).keywords
        profPlain.hobbies prodFiesta).1
      = bonusPart profPlain sitPerdida prodFiesta - 50)
    ∧ (bonusPart profPlain sitPerdida prodFiesta < 50 →
        ∀ (products : List Product) (top_n : Int) (r : Recommendation),
          r ∈ recommend products profPlain sitPerdida top_n → r.product ≠ prodFiesta) :=
  C9_avoid_penalty_amended profPlain sitPerdida prodFiesta (by decide) (by decide)

/-- C9 counterexample: a promotional avoid-trait entry with bonuses 5
scores −45, which is not at most −50, refuting the claimed net score
bound while the entry is still excluded. -/
theorem C9_avoid_score_counterexample :
    (∃ a ∈ prodFiesta.activity_types, a ∈ (get_config sitPerdida.type).avoid)
    ∧ (∀ a ∈ prodFiesta.activity_types, a ∉ (get_config sitPerdida.type).beneficial)
    ∧ bonusPart profPlain sitPerdida prodFiesta = 5
    ∧ (scoreAndReasons (get_config sitPerdida.type).beneficial
        (get_config sitPerdida.type).avoid (get_config sitPerdida.type).keywords
        profPlain.hobbies prodFiesta).1 = -45
    ∧ ¬ ((scoreAndReasons (get_config sitPerdida.type).beneficial
        (get_config sitPerdida.type).avoid (get_config sitPerdida.type).keywords
        profPlain.hobbies prodFiesta).1 ≤ -50) := by
  decide

/-- C2 witness: the score decomposition and the first-reason property
instantiated at a concrete beneficial-trait entry. -/
theorem C2_score_formula_witness :
    ((scoreAndReasons (get_config sitPerdida.type).beneficial
        (get_config sitPerdida.type).avoid (get_config sitPerdida.type).keywords
        profYoga.hobbies prodNatura).1 =
      30 * ((prodNatura.activity_types.countP fun a =>
          (get_config sitPerdida.type).beneficial.contains a) : Int)
      + (if prodNatura.activity_types.any
            (fun a => (get_config sitPerdida.type).avoid.contains a) then -50 else 0)
      + 15 * (((get_config sitPerdida.type).keywords.countP fun k =>
          pyIn k (pyLower prodNatura.nombre)) : Int)
      + (if prodNatura.promocion then 5 else 0)
      + 10 * ((profYoga.hobbies.countP fun h =>
          pyIn (pyLower h) (pyLower prodNatura.nombre)
            || pyIn (pyLower h) (pyLower prodNatura.subcategoria)) : Int))
    ∧ ((prodNatura.activity_types.filter fun a =>
          (get_config sitPerdida.type).beneficial.contains a) ≠ [] →
        (scoreAndReasons (get_config sitPerdida.type).beneficial
            (get_config sitPerdida.type).avoid (get_config sitPerdida.type).keywords
            profYoga.hobbies prodNatura).2.head?
          = some ("Actividad de tipo " ++ apos
              ++ (prodNatura.activity_types.filter fun a =>
                  (get_config sitPerdida.type).beneficial.contains a).headD ""
              ++ apos ++ " ayuda en tu situación")) :=
  C2_score_formula profYoga sitPerdida prodNatura
